import Mathlib

/-!
Shallow embedding of the query-executor core of `db/executor.go`
(package `db` of the surrealdb repository).

Pure helpers (`status`, `detail`, `groupd`) are translated directly.
Stateful functions (`begin`, `cancel`, `commit`, `operate`, `conduct`,
`execute`) are translated into explicit state passing over a `Cache`
value modelling `e.dbo` (the `mem.Cache` transaction handle), with the
results of the external KV operations (`db.Begin`, `TX.Cancel`,
`TX.Commit`) supplied as parameters of type `KV`, the statement
evaluators (`executeSelect`, ...) supplied as a function parameter, and
channel sends / live-query calls recorded as an event trace.
-/

namespace DB

/-- Row values produced by statement evaluators (opaque to the executor:
it only copies them into responses). -/
inductive Val
  | num (n : Nat)
  | str (s : String)
deriving DecidableEq, Repr

/-- Go `error` values, distinguished by dynamic type exactly as the
`status` switch in `executor.go:510-531` distinguishes them.  A Go `nil`
error is `Option.none` at use sites.  `queryNotExecuted` models
`errQueryNotExecuted`; `generic` models any other value implementing
`error`. -/
inductive Err
  | dbError (msg : String)
  | kvError (msg : String)
  | permsError (msg : String)
  | existError (msg : String)
  | fieldError (msg : String)
  | indexError (msg : String)
  | timerError (timer : Nat)
  | queryNotExecuted
  | generic (msg : String)
deriving DecidableEq, Repr

/-- The `Error()` string of each error value.  The texts of the typed
errors are defined outside `src/` (modelled from the spec: scenario 3 of
section 8 gives the text of `errQueryNotExecuted`); only the prefix
`"Transaction failed: "` prepended by `commit` is fixed by the source. -/
def Err.message : Err → String
  | .dbError m => m
  | .kvError m => m
  | .permsError m => m
  | .existError m => m
  | .fieldError m => m
  | .indexError m => m
  | .timerError _ => "Query timeout exceeded"
  | .queryNotExecuted => "Query not executed."
  | .generic m => m

/-- The `status` function (`executor.go:510-531`): maps an error value to
the response status code by its dynamic type; a nil error falls through
to the `default` branch and yields `"OK"`. -/
def status : Option Err → String
  | none => "OK"
  | some (.dbError _) => "ERR_DB"
  | some (.kvError _) => "ERR_KV"
  | some (.permsError _) => "ERR_PE"
  | some (.existError _) => "ERR_EX"
  | some (.fieldError _) => "ERR_FD"
  | some (.indexError _) => "ERR_IX"
  | some (.timerError _) => "ERR_TO"
  | some .queryNotExecuted => "ERR"
  | some (.generic _) => "ERR"

/-- The `detail` function (`executor.go:533-540`): the error text, or the
empty string for a nil error. -/
def detail : Option Err → String
  | none => ""
  | some e => e.message

/-- A `Response` (`resp.go`, used at `executor.go:185-190`): per-statement
result record.  `result` models the `Result` row slice. -/
structure Response where
  time : String
  status : String
  detail : String
  result : List Val
deriving DecidableEq, Repr

/-- Building the response in `conduct` (`executor.go:185-190`).  `res` is
the evaluator result slice, `Option.none` standing for a nil Go slice;
`append([]interface\x7b\x7d\x7b\x7d, res...)` turns either a nil or an
empty slice into an empty row list. -/
def mkResponse (tm : String) (res : Option (List Val)) (err : Option Err) : Response :=
  { time := tm, status := status err, detail := detail err,
    result := res.getD [] }

/-- State of `e.dbo`, the `mem.Cache` transaction handle.  Modelled from
the spec (section 3, TxnHandle; the `mem` package is outside `src/`):
`txPresent` is whether the `TX` field is non-nil, `closed` is the
`Closed()` flag; after `Commit` or `Cancel` the handle is closed and
further operations are no-ops; `Reset` drops the transaction reference. -/
structure Cache where
  txPresent : Bool
  closed : Bool
deriving DecidableEq, Repr

/-- Results that the external KV layer returns to this query: the errors
produced by `db.Begin`, `TX.Cancel` and `TX.Commit` respectively
(`none` = success).  The executor is verified for every combination. -/
structure KV where
  beginErr : Option Err
  cancelErr : Option Err
  commitErr : Option Err
deriving DecidableEq, Repr

/-- Observable events of one `execute` call: evaluator invocations,
transaction operations, live-query `clear`/`flush` calls, and responses
sent on the `e.send` channel. -/
inductive Ev
  | evalCall (tag : Nat)
  | txBegin (rw : Bool)
  | txCancel
  | txCommit
  | txReset
  | clearLive
  | flushLive
  | send (r : Response)
deriving DecidableEq, Repr

/-- Result of a transaction-handle operation: the returned error, the new
handle state, and the events produced. -/
structure OpRes where
  err : Option Err
  dbo : Cache
  ev : List Ev
deriving DecidableEq, Repr

/-- `TX.Cancel` via the handle (modelled from the spec: a no-op returning
nil when no open transaction is present). -/
def Cache.cancelOp (kv : KV) (c : Cache) : OpRes :=
  if c.txPresent && !c.closed then
    { err := kv.cancelErr, dbo := { c with closed := true }, ev := [Ev.txCancel] }
  else
    { err := none, dbo := c, ev := [] }

/-- `TX.Commit` via the handle (modelled from the spec: a no-op returning
nil when no open transaction is present). -/
def Cache.commitOp (kv : KV) (c : Cache) : OpRes :=
  if c.txPresent && !c.closed then
    { err := kv.commitErr, dbo := { c with closed := true }, ev := [Ev.txCommit] }
  else
    { err := none, dbo := c, ev := [] }

/-- `Reset` on the handle: drop the transaction reference (modelled from
the spec); the event is recorded only when a reference was held. -/
def Cache.resetOp (c : Cache) : Cache × List Ev :=
  ({ txPresent := false, closed := false },
   if c.txPresent then [Ev.txReset] else [])

/-- The `begin` method (`executor.go:444-450`): when no transaction is
held, replace the cache with a fresh one and begin a KV transaction; a
failed `db.Begin` leaves the `TX` field nil.  When a transaction is
already held, nothing happens and the nil named return is produced. -/
def begin (kv : KV) (rw : Bool) (dbo : Cache) : OpRes :=
  if !dbo.txPresent then
    match kv.beginErr with
    | some e => { err := some e, dbo := { txPresent := false, closed := false },
                  ev := [Ev.txBegin rw] }
    | none => { err := none, dbo := { txPresent := true, closed := false },
                ev := [Ev.txBegin rw] }
  else
    { err := none, dbo := dbo, ev := [] }

/-- One step of the buffer-draining loop found in `cancel`, `commit` and
`groupd` (`executor.go:469-472,501-504,543-546`): the loop runs once per
initial element, each iteration nilling and slicing off the last entry. -/
def drainAux {α : Type} : Nat → List α → List α
  | 0, b => b
  | n + 1, b => drainAux n b.dropLast

/-- The buffer-draining loop: `len(buf)` iterations of dropping the last
element. -/
def drain {α : Type} (buf : List α) : List α :=
  drainAux buf.length buf

/-- The `groupd` function (`executor.go:542-548`): empty the buffer, then
append the given response. -/
def groupd (buf : List Response) (rsp : Response) : List Response :=
  drain buf ++ [rsp]

/-- Result of the `cancel`/`commit` methods: the two return values
(error, buffer), plus the responses sent on the channel, the new handle
state, and the transaction events, in order of occurrence. -/
structure TermOut where
  retErr : Option Err
  retBuf : List Response
  emitted : List Response
  dbo : Cache
  ev : List Ev
deriving DecidableEq, Repr

/-- The `cancel` method (`executor.go:452-476`).  With no transaction
held it returns `(nil, buf)` untouched; otherwise it cancels the
transaction, rewrites every buffered response to
`status="ERR"`, empty rows, `detail="Transaction cancelled"`, sends each
on the channel, and drains the buffer.  The deferred `Reset` runs on
every path. -/
def cancel (kv : KV) (dbo : Cache) (buf : List Response) (_err : Option Err) : TermOut :=
  if !dbo.txPresent then
    { retErr := none, retBuf := buf, emitted := [], dbo := dbo.resetOp.1,
      ev := dbo.resetOp.2 }
  else
    let c := dbo.cancelOp kv
    let out := buf.map fun v =>
      { v with status := "ERR", result := [], detail := "Transaction cancelled" }
    let r := c.dbo.resetOp
    { retErr := c.err, retBuf := drain out, emitted := out, dbo := r.1,
      ev := c.ev ++ r.2 }

/-- The `commit` method (`executor.go:478-508`).  With no transaction held
it returns `(nil, buf)` untouched; otherwise, with a sticky error it
cancels the transaction, else it commits, and then — only when the
cancel/commit itself returned an error — rewrites every buffered
response to `status="ERR"`, empty rows,
`detail="Transaction failed: "` plus that error's text; every buffered
response is sent on the channel, and the buffer is drained.  The
deferred `Reset` runs on every path. -/
def commit (kv : KV) (dbo : Cache) (buf : List Response) (err : Option Err) : TermOut :=
  if !dbo.txPresent then
    { retErr := none, retBuf := buf, emitted := [], dbo := dbo.resetOp.1,
      ev := dbo.resetOp.2 }
  else
    let c := if err.isSome then dbo.cancelOp kv else dbo.commitOp kv
    let out := buf.map fun v =>
      match c.err with
      | some e2 =>
          { v with status := "ERR", result := [],
                   detail := "Transaction failed: " ++ e2.message }
      | none => v
    let r := c.dbo.resetOp
    { retErr := c.err, retBuf := drain out, emitted := out, dbo := r.1,
      ev := c.ev ++ r.2 }

/-- A data statement (every statement variant dispatched by `operate`,
`executor.go:293-380`).  `kind` separates `*sql.ReturnStatement`, which
`conduct` treats specially, from the other variants; `w` models the
`Writeable()` capability (`false` for statements not implementing it,
spec section 6); `duration` models the `Duration()` capability (0 means
unbounded); `tag` identifies the statement so that the evaluator events
are distinguishable. -/
structure DStm where
  kind : Bool
  w : Bool
  duration : Nat
  tag : Nat
deriving DecidableEq, Repr

/-- Whether the data statement is a `*sql.ReturnStatement`. -/
def DStm.isReturn (d : DStm) : Bool := d.kind

/-- A statement of the parsed query: the transaction-control trio or a
data statement. -/
inductive Stm
  | beginS
  | cancelS
  | commitS
  | dataS (d : DStm)
deriving DecidableEq, Repr

/-- The statement evaluators (`executeSelect`, `executeCreate`, ...; they
live outside `src/`): each returns a row slice (`none` = nil slice) and
an error. -/
abbrev Eval := DStm → Option (List Val) × Option Err

/-- Result of `operate`: the two return values, the handle state, and the
events produced. -/
structure OperateOut where
  res : Option (List Val)
  err : Option Err
  dbo : Cache
  ev : List Ev
deriving DecidableEq, Repr

/-- The deferred duration guard (`executor.go:271-281`): registered only
when the statement declares `Duration() > 0`; at return, when the
returned error is nil but the deadline-derived context reports a non-nil
`Err()` (`late = true`), the named returns are replaced by a nil row
slice and a `TimerError` carrying the duration. -/
def timerGuard (d : DStm) (late : Bool) (res : Option (List Val)) (err : Option Err) :
    Option (List Val) × Option Err :=
  if d.duration > 0 && err.isNone && late then
    (none, some (Err.timerError d.duration))
  else
    (res, err)

/-- The deferred handlers of `operate` run at its return, last registered
first: the duration guard (`executor.go:274-279`), then — when a local
transaction was begun — `e.dbo.Cancel()` (`executor.go:257`). -/
def operateDefers (kv : KV) (d : DStm) (loc late : Bool)
    (res : Option (List Val)) (err : Option Err) (dbo : Cache) (ev : List Ev) :
    OperateOut :=
  let t := timerGuard d late res err
  let c := if loc then dbo.cancelOp kv else { err := none, dbo := dbo, ev := [] }
  { res := t.1, err := t.2, dbo := c.dbo, ev := ev ++ c.ev }

/-- The body of `operate` after a transaction is available
(`executor.go:271-441`): run the evaluator, then the finalization select
(`executor.go:386-438`) — on a cancelled context the transaction is
cancelled, reset and the live registrations cleared; otherwise a still
open local transaction is closed according to the error and writability,
with `flush` on commit success and `clear` on every other branch — and
finally the deferred handlers.  `done` is whether `ctx.Done()` is
observed at the select; `late` is whether the deadline-derived context
reports a non-nil `Err()` when the deferred guard runs. -/
def operateBody (kv : KV) (eval : Eval) (done late loc trw : Bool)
    (dbo : Cache) (d : DStm) (ev0 : List Ev) : OperateOut :=
  let r := eval d
  let ev1 := ev0 ++ [Ev.evalCall d.tag]
  if done then
    let c := dbo.cancelOp kv
    let rs := c.dbo.resetOp
    operateDefers kv d loc late r.1 r.2 rs.1 (ev1 ++ c.ev ++ rs.2 ++ [Ev.clearLive])
  else
    if loc && !dbo.closed then
      if r.2.isSome then
        let c := dbo.cancelOp kv
        let rs := c.dbo.resetOp
        operateDefers kv d loc late r.1 r.2 rs.1 (ev1 ++ c.ev ++ [Ev.clearLive] ++ rs.2)
      else if !trw then
        let c := dbo.cancelOp kv
        let rs := c.dbo.resetOp
        operateDefers kv d loc late r.1 c.err rs.1 (ev1 ++ c.ev ++ [Ev.clearLive] ++ rs.2)
      else
        let c := dbo.commitOp kv
        let rs := c.dbo.resetOp
        operateDefers kv d loc late r.1 c.err rs.1
          (ev1 ++ c.ev ++ [if c.err.isSome then Ev.clearLive else Ev.flushLive] ++ rs.2)
    else
      operateDefers kv d loc late r.1 r.2 dbo ev1

/-- The `operate` method (`executor.go:231-442`): when no transaction is
held, begin a local one whose writability is the statement's
`Writeable()` capability, returning at once on a begin error; then run
the body.  (The fresh mutex token of `executor.go:263` is not modelled:
it serializes recursive sub-queries, which the claims do not touch.) -/
def operate (kv : KV) (eval : Eval) (done late : Bool) (dbo : Cache) (d : DStm) :
    OperateOut :=
  if !dbo.txPresent then
    let trw := d.w
    let b := begin kv trw dbo
    match b.err with
    | some e => { res := none, err := some e, dbo := b.dbo, ev := b.ev }
    | none => operateBody kv eval done late true trw b.dbo d b.ev
  else
    operateBody kv eval done late false false dbo d []

/-- The `conduct` method (`executor.go:114-229`), one statement of the
loop.  The rolling error and the response buffer are local variables of
`conduct` in the source (`executor.go:116,119`), so every call starts
with a nil error and an empty buffer; the buffer built at
`executor.go:220-227` is dropped when `conduct` returns.  Transaction
statements short-circuit; a data statement runs `operate` when the
rolling error is nil and otherwise synthesizes an empty result with
`errQueryNotExecuted`; the response is sent at once when no transaction
is held afterwards, else buffered (locally). -/
def conduct (kv : KV) (eval : Eval) (done late : Bool) (dbo : Cache) (stm : Stm) :
    Cache × List Ev :=
  let err : Option Err := none
  let buf : List Response := []
  match stm with
  | Stm.beginS =>
      let b := begin kv true dbo
      (b.dbo, b.ev)
  | Stm.cancelS =>
      let c := cancel kv dbo buf err
      (c.dbo, c.ev ++ c.emitted.map Ev.send ++ [Ev.clearLive])
  | Stm.commitS =>
      let c := commit kv dbo buf err
      (c.dbo, c.ev ++ c.emitted.map Ev.send ++
        [if c.retErr.isSome then Ev.clearLive else Ev.flushLive])
  | Stm.dataS d =>
      match err with
      | none =>
          let o := operate kv eval done late dbo d
          let rsp := mkResponse "" o.res o.err
          if !o.dbo.txPresent then
            (o.dbo, o.ev ++ [Ev.send rsp])
          else
            let _ := if d.isReturn then groupd buf rsp else buf ++ [rsp]
            (o.dbo, o.ev)
      | some _ =>
          let rsp := mkResponse "" (some []) (some Err.queryNotExecuted)
          if !dbo.txPresent then
            (dbo, [Ev.send rsp])
          else
            let _ := if d.isReturn then groupd buf rsp else buf ++ [rsp]
            (dbo, [])

/-- The statement loop of `execute` (`executor.go:103-110`), with a
discrete clock for cooperative cancellation: `ctx.Done()` is observed at
clock `2*i` before statement `i` is conducted, and at clock `2*i+1`
inside `operate` for statement `i`; the context counts as done from
clock `doneAt` on.  A done context before a statement returns without
conducting it or any later one. -/
def executeLoop (kv : KV) (eval : Eval) (doneAt : Nat) :
    Nat → Cache → List Stm → Cache × List Ev
  | _, dbo, [] => (dbo, [])
  | i, dbo, stm :: rest =>
      if doneAt ≤ 2 * i then
        (dbo, [])
      else
        let s := conduct kv eval (decide (doneAt ≤ 2 * i + 1))
          (decide (doneAt ≤ 2 * i + 1)) dbo stm
        let t := executeLoop kv eval doneAt (i + 1) s.1 rest
        (t.1, s.2 ++ t.2)

/-- The `execute` method (`executor.go:62-112`): the statement loop,
then the teardown defer of `executor.go:80-85` — a transaction still
held (a `BEGIN` without matching `COMMIT`/`CANCEL`) is cancelled and the
live registrations for the session cleared.  (Channel close, pool
release and panic recovery are outside the event model.) -/
def execute (kv : KV) (eval : Eval) (doneAt : Nat) (dbo : Cache) (stms : List Stm) :
    Cache × List Ev :=
  let t := executeLoop kv eval doneAt 0 dbo stms
  if t.1.txPresent then
    let c := t.1.cancelOp kv
    (c.dbo, t.2 ++ c.ev ++ [Ev.clearLive])
  else
    t

/-- The `executor` struct (`executor.go:30-40`).  Pointer-valued fields
(`opts`, `send`, `cache`) carry an allocation identity; `lock` carries
the identity of the mutex token; `time` is the statement version
timestamp. -/
structure Executor where
  id : String
  ns : String
  db : String
  dbo : Cache
  time : Int
  lock : Nat
  opts : Nat
  send : Nat
  cache : Nat
deriving DecidableEq, Repr

/-- The `newExecutor` function (`executor.go:42-60`): the executor
recycled from `executorPool` is given the new `id`, `ns`, `db`, a fresh
`mem.Cache`, fresh options, a fresh response channel and a fresh
per-query cache; `fresh` stands for the next unused allocation
identities.  The source assigns no other field. -/
def newExecutor (pooled : Executor) (id ns db : String) (fresh : Nat) : Executor :=
  { pooled with
    id := id, ns := ns, db := db,
    dbo := { txPresent := false, closed := false },
    opts := fresh, send := fresh + 1, cache := fresh + 2 }

/-- Whether an event is a channel send. -/
def Ev.isSend : Ev → Bool
  | .send _ => true
  | _ => false

/-- A KV layer in which every operation succeeds. -/
def kvOk : KV := { beginErr := none, cancelErr := none, commitErr := none }

/-- A handle holding no transaction. -/
def cacheNil : Cache := { txPresent := false, closed := false }

/-- A handle holding an open transaction. -/
def cacheOpen : Cache := { txPresent := true, closed := false }

/-- A writable data statement whose evaluation fails under `evalStub`. -/
def stFail : DStm := { kind := false, w := true, duration := 0, tag := 0 }

/-- A writable data statement whose evaluation succeeds under `evalStub`. -/
def stOk : DStm := { kind := false, w := true, duration := 0, tag := 1 }

/-- A read-only data statement declaring a maximum duration of 5, whose
evaluation succeeds under `evalStub`. -/
def stSlow : DStm := { kind := false, w := false, duration := 5, tag := 2 }

/-- A concrete evaluator: statement 0 fails with a generic error, every
other statement yields one row. -/
def evalStub : Eval := fun d =>
  if d.tag = 0 then (some [], some (Err.generic "eval failed"))
  else (some [Val.num 1], none)

/-- A concrete successful response, as buffered for a committed data
statement. -/
def rspOK : Response := { time := "", status := "OK", detail := "", result := [Val.num 1] }

end DB

namespace DB

/-! Helper lemmas about the buffer-draining loop, shared by the claims
about `groupd`, `cancel` and `commit`. -/

theorem drainAux_eq_nil {α : Type} (n : Nat) (b : List α) (h : b.length ≤ n) :
    drainAux n b = [] := by
  induction n generalizing b with
  | zero =>
      have : b = [] := List.length_eq_zero.mp (Nat.le_zero.mp h)
      simp [this, drainAux]
  | succ n ih =>
      have hlen : b.dropLast.length ≤ n := by
        rw [List.length_dropLast]
        omega
      simp [drainAux, ih b.dropLast hlen]

theorem drain_eq_nil {α : Type} (b : List α) : drain b = [] :=
  drainAux_eq_nil b.length b (Nat.le_refl _)

/-- C1: inside an explicit transaction, the statement following a failed
data statement is nevertheless evaluated.  On the query
`BEGIN; <failing data statement>; <data statement>; COMMIT` with every
KV operation succeeding, the event trace of `execute` contains the
evaluator call for the statement after the failure (`evalCall 1`), and
contains no synthesized `QueryNotExecuted` response: the rolling error
is a variable local to `conduct` (`executor.go:116`), reset for every
statement, so the suppression described by the claim (and by the
source's own comments at `executor.go:140-146,175-183`) never happens. -/
theorem c1_next_statement_still_evaluated :
    (execute kvOk evalStub 1000 cacheNil
        [Stm.beginS, Stm.dataS stFail, Stm.dataS stOk, Stm.commitS]).2 =
      [Ev.txBegin true, Ev.evalCall 0, Ev.evalCall 1, Ev.txCommit,
       Ev.txReset, Ev.flushLive] ∧
    Ev.evalCall 1 ∈ (execute kvOk evalStub 1000 cacheNil
        [Stm.beginS, Stm.dataS stFail, Stm.dataS stOk, Stm.commitS]).2 := by
  constructor
  · rfl
  · decide

/-- C2: the responses buffered inside an explicit transaction are lost,
not emitted at `COMMIT`.  On the query `BEGIN; <data statement>; COMMIT`
with every KV operation succeeding, the transaction commits, yet the
event trace of `execute` contains no channel send at all: the response
buffer is a variable local to `conduct` (`executor.go:119`), discarded
when each statement finishes, so `commit` always receives an empty
buffer. -/
theorem c2_buffered_responses_never_emitted :
    (execute kvOk evalStub 1000 cacheNil
        [Stm.beginS, Stm.dataS stOk, Stm.commitS]).2 =
      [Ev.txBegin true, Ev.evalCall 1, Ev.txCommit, Ev.txReset, Ev.flushLive] ∧
    (execute kvOk evalStub 1000 cacheNil
        [Stm.beginS, Stm.dataS stOk, Stm.commitS]).2.all (fun e => !e.isSend) = true := by
  constructor
  · rfl
  · decide

/-- C3, counterexample: a `COMMIT` reached with a sticky error degrades
to a cancel, and when that cancel succeeds the returned error is nil, so
the buffered response is emitted with its original `OK` status and
non-empty rows rather than rewritten to `ERR` — refuting the claim that
every buffered response is then emitted with status `ERR` and empty
rows. -/
theorem c3_sticky_commit_keeps_original_status :
    (commit kvOk cacheOpen [rspOK] (some Err.queryNotExecuted)).retErr = none ∧
    (commit kvOk cacheOpen [rspOK] (some Err.queryNotExecuted)).emitted = [rspOK] ∧
    rspOK.status = "OK" ∧ rspOK.result ≠ [] := by
  refine ⟨rfl, rfl, rfl, ?_⟩
  decide

/-- C3, amended: with an open transaction, `cancel` emits every buffered
response rewritten to status `ERR`, empty rows and detail
`"Transaction cancelled"` and returns an empty buffer; `commit` returns
an empty buffer, and whenever the terminal KV operation (the commit, or
the cancel that a sticky error degrades it to) returns an error, every
buffered response is emitted rewritten to status `ERR`, empty rows and
detail `"Transaction failed: "` plus that error's text — while when that
operation succeeds the responses are emitted unchanged. -/
theorem c3_terminal_buffer_rewrite (kv : KV) (dbo : Cache) (buf : List Response)
    (err : Option Err) (h : dbo.txPresent = true) :
    ((cancel kv dbo buf err).retBuf = [] ∧
     (cancel kv dbo buf err).emitted.length = buf.length ∧
     (∀ r ∈ (cancel kv dbo buf err).emitted,
        r.status = "ERR" ∧ r.result = [] ∧ r.detail = "Transaction cancelled")) ∧
    ((commit kv dbo buf err).retBuf = [] ∧
     (commit kv dbo buf err).emitted.length = buf.length ∧
     (∀ e2, (commit kv dbo buf err).retErr = some e2 →
        ∀ r ∈ (commit kv dbo buf err).emitted,
          r.status = "ERR" ∧ r.result = [] ∧
          r.detail = "Transaction failed: " ++ e2.message) ∧
     ((commit kv dbo buf err).retErr = none →
        (commit kv dbo buf err).emitted = buf)) := by
  constructor
  · refine ⟨?_, ?_, ?_⟩
    · simp [cancel, h, drain_eq_nil]
    · simp [cancel, h]
    · intro r hr
      simp only [cancel, h, Bool.not_true, Bool.false_eq_true, if_false,
        List.mem_map] at hr
      obtain ⟨v, _, hv⟩ := hr
      simp [← hv]
  · refine ⟨?_, ?_, ?_, ?_⟩
    · simp [commit, h, drain_eq_nil]
    · simp [commit, h]
    · intro e2 he2 r hr
      simp only [commit, h, Bool.not_true, Bool.false_eq_true, if_false] at he2 hr
      rw [he2] at hr
      simp only [List.mem_map] at hr
      obtain ⟨v, _, hv⟩ := hr
      simp [← hv]
    · intro he
      simp only [commit, h, Bool.not_true, Bool.false_eq_true, if_false] at he ⊢
      rw [he]
      simp

/-- C3, witness for the amended theorem at a concrete input. -/
theorem c3_terminal_buffer_rewrite_witness :
    (cancel kvOk cacheOpen [rspOK] none).retBuf = [] ∧
    (commit kvOk cacheOpen [rspOK] none).retBuf = [] :=
  ⟨(c3_terminal_buffer_rewrite kvOk cacheOpen [rspOK] none rfl).1.1,
   (c3_terminal_buffer_rewrite kvOk cacheOpen [rspOK] none rfl).2.1⟩

/-- C4: `groupd`, the buffering step `conduct` applies to the response of
a `RETURN` statement inside an explicit transaction
(`executor.go:220-227,542-548`), replaces the whole buffer with a
single-element buffer holding only that response, whatever was buffered
before. -/
theorem c4_return_collapses_buffer (buf : List Response) (rsp : Response) :
    groupd buf rsp = [rsp] ∧ (groupd buf rsp).length = 1 := by
  constructor
  · simp [groupd, drain_eq_nil]
  · simp [groupd, drain_eq_nil]

/-- C9: `cancel` and `commit` with no transaction held emit nothing,
return the given buffer unchanged and return a nil error. -/
theorem c9_terminal_noop_without_transaction (kv : KV) (dbo : Cache)
    (buf : List Response) (err : Option Err) (h : dbo.txPresent = false) :
    (cancel kv dbo buf err).retErr = none ∧
    (cancel kv dbo buf err).retBuf = buf ∧
    (cancel kv dbo buf err).emitted = [] ∧
    (commit kv dbo buf err).retErr = none ∧
    (commit kv dbo buf err).retBuf = buf ∧
    (commit kv dbo buf err).emitted = [] := by
  refine ⟨?_, ?_, ?_, ?_, ?_, ?_⟩ <;> simp [cancel, commit, h]

/-- C9, witness at a concrete input. -/
theorem c9_terminal_noop_without_transaction_witness :
    (cancel kvOk cacheNil [rspOK] none).retBuf = [rspOK] ∧
    (commit kvOk cacheNil [rspOK] none).retBuf = [rspOK] :=
  ⟨(c9_terminal_noop_without_transaction kvOk cacheNil [rspOK] none rfl).2.1,
   (c9_terminal_noop_without_transaction kvOk cacheNil [rspOK] none rfl).2.2.2.2.1⟩

/-- C10: `begin` with a transaction already held changes nothing — it
performs no KV operation, leaves the handle untouched and returns a nil
error. -/
theorem c10_nested_begin_noop (kv : KV) (rw : Bool) (dbo : Cache)
    (h : dbo.txPresent = true) :
    begin kv rw dbo = { err := none, dbo := dbo, ev := [] } := by
  simp [begin, h]

/-- C10, witness at a concrete input. -/
theorem c10_nested_begin_noop_witness :
    begin kvOk true cacheOpen = { err := none, dbo := cacheOpen, ev := [] } :=
  c10_nested_begin_noop kvOk true cacheOpen rfl

/-- C8, counterexample: acquisition does not reset every transient field
— `newExecutor` assigns neither `time` nor `lock`
(`executor.go:42-60`), so an executor pooled with `time = 5` and
`lock = 7` still carries those values after acquisition, and two pooled
executors differing only in those fields yield different acquired
executors. -/
theorem c8_time_lock_not_reset :
    (newExecutor
        { id := "", ns := "", db := "", dbo := cacheNil, time := 5, lock := 7,
          opts := 0, send := 0, cache := 0 } "a" "b" "c" 10).time = 5 ∧
    (newExecutor
        { id := "", ns := "", db := "", dbo := cacheNil, time := 5, lock := 7,
          opts := 0, send := 0, cache := 0 } "a" "b" "c" 10).lock = 7 ∧
    newExecutor
        { id := "", ns := "", db := "", dbo := cacheNil, time := 5, lock := 7,
          opts := 0, send := 0, cache := 0 } "a" "b" "c" 10 ≠
      newExecutor
        { id := "", ns := "", db := "", dbo := cacheNil, time := 0, lock := 0,
          opts := 0, send := 0, cache := 0 } "a" "b" "c" 10 := by
  refine ⟨rfl, rfl, ?_⟩
  decide

/-- C8, amended: acquisition resets `id`, `ns`, `db`, the transaction
handle, the options, the response channel and the per-query cache to
fresh values independent of the pooled executor, but `time` and `lock`
retain their values from the previous use (both are overwritten inside
`conduct`/`operate` before being read). -/
theorem c8_acquisition_resets_all_but_time_lock (pooled : Executor)
    (id ns db : String) (fresh : Nat) :
    (newExecutor pooled id ns db fresh).id = id ∧
    (newExecutor pooled id ns db fresh).ns = ns ∧
    (newExecutor pooled id ns db fresh).db = db ∧
    (newExecutor pooled id ns db fresh).dbo = { txPresent := false, closed := false } ∧
    (newExecutor pooled id ns db fresh).opts = fresh ∧
    (newExecutor pooled id ns db fresh).send = fresh + 1 ∧
    (newExecutor pooled id ns db fresh).cache = fresh + 2 ∧
    (newExecutor pooled id ns db fresh).time = pooled.time ∧
    (newExecutor pooled id ns db fresh).lock = pooled.lock := by
  refine ⟨rfl, rfl, rfl, rfl, rfl, rfl, rfl, rfl, rfl⟩

/-- C5: in implicit mode — no transaction held on entry, so `operate`
begins a local one, which succeeds and is still open — with the context
not cancelled: an evaluator error makes `operate` cancel the
transaction, clear the live-query registrations and return the
evaluator error; on success a read-only transaction is cancelled (never
committed) and a writable one is committed, with `flush` on commit
success and `clear` on commit failure, returning the commit error if
any. -/
theorem c5_implicit_finalization (kv : KV) (eval : Eval) (late : Bool) (dbo : Cache)
    (d : DStm) (h1 : dbo.txPresent = false) (h2 : kv.beginErr = none) :
    (∀ e2, (eval d).2 = some e2 →
       (operate kv eval false late dbo d).err = some e2 ∧
       Ev.txCancel ∈ (operate kv eval false late dbo d).ev ∧
       Ev.clearLive ∈ (operate kv eval false late dbo d).ev ∧
       Ev.txCommit ∉ (operate kv eval false late dbo d).ev) ∧
    ((eval d).2 = none → d.w = false →
       Ev.txCancel ∈ (operate kv eval false late dbo d).ev ∧
       Ev.clearLive ∈ (operate kv eval false late dbo d).ev ∧
       Ev.txCommit ∉ (operate kv eval false late dbo d).ev) ∧
    ((eval d).2 = none → d.w = true →
       Ev.txCommit ∈ (operate kv eval false late dbo d).ev ∧
       (kv.commitErr = none → Ev.flushLive ∈ (operate kv eval false late dbo d).ev) ∧
       (∀ e2, kv.commitErr = some e2 →
          Ev.clearLive ∈ (operate kv eval false late dbo d).ev ∧
          (operate kv eval false late dbo d).err = some e2)) := by
  rcases hev : eval d with ⟨res0, err0⟩
  refine ⟨?_, ?_, ?_⟩
  · intro e2 he2
    simp only at he2
    subst he2
    simp [operate, begin, operateBody, operateDefers, timerGuard,
      Cache.cancelOp, Cache.resetOp, h1, h2, hev]
  · intro he hw
    simp only at he
    subst he
    simp [operate, begin, operateBody, operateDefers, timerGuard,
      Cache.cancelOp, Cache.resetOp, h1, h2, hev, hw]
  · intro he hw
    simp only at he
    subst he
    refine ⟨?_, ?_, ?_⟩
    · simp [operate, begin, operateBody, operateDefers, timerGuard,
        Cache.commitOp, Cache.cancelOp, Cache.resetOp, h1, h2, hev, hw]
    · intro hc
      simp [operate, begin, operateBody, operateDefers, timerGuard,
        Cache.commitOp, Cache.cancelOp, Cache.resetOp, h1, h2, hev, hw, hc]
    · intro e2 hc
      simp [operate, begin, operateBody, operateDefers, timerGuard,
        Cache.commitOp, Cache.cancelOp, Cache.resetOp, h1, h2, hev, hw, hc]

/-- C5, witness at a concrete input: a successful writable statement in
implicit mode is committed and flushed. -/
theorem c5_implicit_finalization_witness :
    Ev.txCommit ∈ (operate kvOk evalStub false false cacheNil stOk).ev ∧
    Ev.flushLive ∈ (operate kvOk evalStub false false cacheNil stOk).ev :=
  ⟨((c5_implicit_finalization kvOk evalStub false cacheNil stOk rfl rfl).2.2 rfl rfl).1,
   ((c5_implicit_finalization kvOk evalStub false cacheNil stOk rfl rfl).2.2 rfl rfl).2.1 rfl⟩

/-- C6: for a statement declaring a positive maximum duration, when the
evaluator returns no error but the deadline-derived context has expired
(so its `Done` channel is observed at the finalization select and its
`Err()` is non-nil when the deferred guard runs), `operate` replaces the
result with a nil row slice and a `TimerError` carrying the duration;
`status` maps a `TimerError` to `ERR_TO`, so the response `conduct`
builds from this result has status `ERR_TO`. -/
theorem c6_duration_timeout (kv : KV) (eval : Eval) (dbo : Cache) (d : DStm)
    (hd : 0 < d.duration) (he : (eval d).2 = none) (hb : kv.beginErr = none) :
    (operate kv eval true true dbo d).res = none ∧
    (operate kv eval true true dbo d).err = some (Err.timerError d.duration) ∧
    status (some (Err.timerError d.duration)) = "ERR_TO" ∧
    (mkResponse "" (operate kv eval true true dbo d).res
        (operate kv eval true true dbo d).err).status = "ERR_TO" := by
  rcases hev : eval d with ⟨res0, err0⟩
  rw [hev] at he
  simp only at he
  subst he
  have h3 : (operate kv eval true true dbo d).res = none ∧
      (operate kv eval true true dbo d).err = some (Err.timerError d.duration) := by
    cases hdb : dbo.txPresent
    · constructor <;>
        simp [operate, begin, operateBody, operateDefers, timerGuard,
          Cache.cancelOp, Cache.resetOp, hdb, hb, hev, hd]
    · constructor <;>
        simp [operate, operateBody, operateDefers, timerGuard,
          Cache.cancelOp, Cache.resetOp, hdb, hev, hd]
  refine ⟨h3.1, h3.2, rfl, ?_⟩
  rw [h3.1, h3.2]
  rfl

/-- C6, witness at a concrete input. -/
theorem c6_duration_timeout_witness :
    (operate kvOk evalStub true true cacheNil stSlow).err =
      some (Err.timerError 5) :=
  (c6_duration_timeout kvOk evalStub cacheNil stSlow (by decide) rfl rfl).2.1

/-- C7: once the context is done, the top-level statement loop returns
before conducting the next statement (so no statement from that point on
is ever executed); and when cancellation is observed at the select right
after the evaluator call inside `operate` while a transaction is open,
that transaction is cancelled and reset and the live-query
registrations are cleared, leaving no transaction held. -/
theorem c7_cancellation_stops_execution (kv : KV) (eval : Eval) (late : Bool)
    (doneAt i : Nat) (dbo dbo2 : Cache) (stms : List Stm) (d : DStm)
    (ha : doneAt ≤ 2 * i) (hb1 : dbo2.txPresent = true) (hb2 : dbo2.closed = false) :
    executeLoop kv eval doneAt i dbo stms = (dbo, []) ∧
    ((operate kv eval true late dbo2 d).dbo.txPresent = false ∧
     Ev.txCancel ∈ (operate kv eval true late dbo2 d).ev ∧
     Ev.txReset ∈ (operate kv eval true late dbo2 d).ev ∧
     Ev.clearLive ∈ (operate kv eval true late dbo2 d).ev) := by
  constructor
  · cases stms with
    | nil => simp [executeLoop]
    | cons s rest => simp [executeLoop, ha]
  · rcases hev : eval d with ⟨res0, err0⟩
    refine ⟨?_, ?_, ?_, ?_⟩ <;>
      simp [operate, operateBody, operateDefers, timerGuard,
        Cache.cancelOp, Cache.resetOp, hb1, hb2, hev]

/-- C7, witness at a concrete input. -/
theorem c7_cancellation_stops_execution_witness :
    executeLoop kvOk evalStub 0 0 cacheNil [Stm.dataS stOk] = (cacheNil, []) ∧
    Ev.txCancel ∈ (operate kvOk evalStub true false cacheOpen stOk).ev :=
  ⟨(c7_cancellation_stops_execution kvOk evalStub false 0 0 cacheNil cacheOpen
      [Stm.dataS stOk] stOk (Nat.le_refl 0) rfl rfl).1,
   (c7_cancellation_stops_execution kvOk evalStub false 0 0 cacheNil cacheOpen
      [Stm.dataS stOk] stOk (Nat.le_refl 0) rfl rfl).2.2.1⟩

end DB
